import Mathlib

/-!
Shallow embedding of the LangGraph multi-source research agent
(`main.py`, `serp_web_operations.py`, `reddit_web_operations.py`).

Python dynamic values are modelled by the inductive `PyVal`; a state field
that may be absent from the `State` TypedDict is an `Option PyVal`
(`Option.none` = key missing, `some PyVal.none` = key present holding
Python `None`).  External collaborators (the SERP provider, the Reddit
scrape provider and the reasoning engine — the spec's capability
interfaces) are passed to each node as the outcome of the single call the
node makes to them: `Except Exc v` models "the call returned `v` /
raised".  Each node returns the value written to its owned field together
with explicit call counters, so that "the provider/engine was not
invoked" is the statement that the counter is zero.
-/

/-- Model of a dynamic Python value, covering the shapes that flow through
the agent: `None`, strings, ints, lists and (string-keyed) dicts. -/
inductive PyVal where
  | none : PyVal
  | str : String → PyVal
  | int : Int → PyVal
  | list : List PyVal → PyVal
  | dict : List (String × PyVal) → PyVal
deriving Repr

/-- Python truthiness (`bool(v)`): `None`, `""`, `0`, `[]`, `{}` are falsy. -/
def PyVal.isTruthy : PyVal → Bool
  | .none => false
  | .str s => !s.isEmpty
  | .int n => n != 0
  | .list xs => !xs.isEmpty
  | .dict kvs => !kvs.isEmpty

/-- `isinstance(v, str)`. -/
def PyVal.isStr : PyVal → Bool
  | .str _ => true
  | _ => false

/-- `isinstance(v, list)`. -/
def PyVal.isList : PyVal → Bool
  | .list _ => true
  | _ => false

/-- Rendering used for Python `str(v)`.  Exact text of non-string
renderings is irrelevant to every property below; what matters (and is
faithful to CPython on these shapes) is that `str` of a string is that
string and `str` of any non-string `PyVal` here is never empty. -/
def pyStr : PyVal → String
  | .none => "None"
  | .str s => s
  | .int n => toString n
  | .list _ => "[...]"
  | .dict _ => "\x7b...\x7d"

/-- The coercion pattern `str(v) if v is not None else ""` used by
`main.py` for type validation (bing/yandex analysis, synthesis). -/
def pyCoerceStr (v : PyVal) : String :=
  match v with
  | .none => ""
  | v => pyStr v

/-- Exceptions; the tag only distinguishes kinds where the code branches. -/
inductive Exc where
  | typeError
  | valueError
  | attributeError
  | requestError
deriving Repr, DecidableEq

/-- `dict.get(k, default)`. -/
def dictGet (kvs : List (String × PyVal)) (k : String) (dflt : PyVal) : PyVal :=
  match kvs.find? (fun kv => kv.1 == k) with
  | some kv => kv.2
  | Option.none => dflt

/-- Python `list(v)`: lists copy, strings iterate to their characters,
dicts iterate to their keys; `None` and ints raise `TypeError`. -/
def pyList : PyVal → Except Exc (List PyVal)
  | .list xs => .ok xs
  | .str s => .ok (s.toList.map (fun c => PyVal.str (String.singleton c)))
  | .dict kvs => .ok (kvs.map (fun kv => PyVal.str kv.1))
  | .none => .error .typeError
  | .int _ => .error .typeError

/-- Python `len(v)`; raises `TypeError` on `None`/ints. -/
def pyLen : PyVal → Except Exc Nat
  | .list xs => .ok xs.length
  | .str s => .ok s.length
  | .dict kvs => .ok kvs.length
  | .none => .error .typeError
  | .int _ => .error .typeError

/-- A reasoning-engine reply object (`llm.invoke` result): `content` is
`some c` when the object has a `content` attribute (value `c`), and
`rendered` models `str(reply)`. -/
structure Reply where
  content : Option PyVal
  rendered : String
deriving Repr

/-- The pattern `str(reply.content) if hasattr(reply, 'content') else str(reply)`. -/
def replyToText (r : Reply) : PyVal :=
  match r.content with
  | some c => PyVal.str (pyStr c)
  | Option.none => PyVal.str r.rendered

/-- `SearchEngine` enum from `serp_web_operations.py`. -/
inductive SearchEngine where
  | GOOGLE
  | BING
  | Yandex
deriving Repr, DecidableEq

/-- The `State` TypedDict of `main.py` (the `messages` channel carries no
data any node reads, and is omitted).  `Option.none` models a missing
key, `some PyVal.none` a key present with value `None`. -/
structure State where
  user_input : Option PyVal := Option.none
  google_results : Option PyVal := Option.none
  bing_results : Option PyVal := Option.none
  yandex_results : Option PyVal := Option.none
  reddit_results : Option PyVal := Option.none
  selected_reddit_urls : Option PyVal := Option.none
  reddit_post_data : Option PyVal := Option.none
  google_analysis : Option PyVal := Option.none
  bing_analysis : Option PyVal := Option.none
  yandex_analysis : Option PyVal := Option.none
  reddit_analysis : Option PyVal := Option.none
  final_answer : Option PyVal := Option.none

/-- `state.get(key)` (default `None`). -/
def stGet (f : Option PyVal) : PyVal := f.getD PyVal.none

/-- `state.get(key, "")`. -/
def stGetS (f : Option PyVal) : PyVal := f.getD (PyVal.str "")

/-! ## Gathering nodes (`main.py` lines 76–118)

Each node takes the outcome of the one provider call it can make
(`serp : SearchEngine → Except Exc PyVal` for `serp_search`,
`scrap : Except Exc PyVal` for `scrap_reddit`; `PyVal.none` is the
provider's `None` failure sentinel) and returns the value written to its
owned `*_results` field, paired with the number of provider calls made.
No `try` surrounds the provider call, so a raise propagates (`.error`). -/

def google_search (serp : SearchEngine → Except Exc PyVal) (st : State) :
    Except Exc PyVal × Nat :=
  let user_input := stGet st.user_input
  if !user_input.isTruthy then (.ok (.str ""), 0)
  else (serp SearchEngine.GOOGLE, 1)

def bing_search (serp : SearchEngine → Except Exc PyVal) (st : State) :
    Except Exc PyVal × Nat :=
  let user_input := stGet st.user_input
  if !user_input.isTruthy then (.ok (.str ""), 0)
  else (serp SearchEngine.BING, 1)

def yandex_search (serp : SearchEngine → Except Exc PyVal) (st : State) :
    Except Exc PyVal × Nat :=
  let user_input := stGet st.user_input
  if !user_input.isTruthy then (.ok (.str ""), 0)
  else (serp SearchEngine.Yandex, 1)

def reddit_search (scrap : Except Exc PyVal) (st : State) :
    Except Exc PyVal × Nat :=
  let user_input := stGet st.user_input
  if !user_input.isTruthy then (.ok (.str ""), 0)
  else (scrap, 1)

/-! ## URL Selection node (`main.py` lines 120–172, `select_reddit_urls`) -/

/-- Outcome of the single `structured_llm.invoke(messages)` call:
it raised, returned a pydantic `RedditURLAnalysis` (whose validated
`selected_urls` is a list of `str`), returned a raw `dict`, returned some
other object carrying a `selected_urls` attribute, or returned an object
of unexpected shape (no such attribute). -/
inductive StructuredLLMOutcome where
  | raises (e : Exc)
  | schemaObj (urls : List String)
  | mapping (kvs : List (String × PyVal))
  | attrObj (v : PyVal)
  | other
deriving Repr

/-- The shape-dispatch of `select_reddit_urls` (lines 150–158): the value
bound to `selected_urls` before list-normalization.  Only meaningful for
non-raising outcomes. -/
def rawSelected : StructuredLLMOutcome → PyVal
  | .raises _ => .list []
  | .schemaObj urls => .list (urls.map PyVal.str)
  | .mapping kvs => dictGet kvs "selected_urls" (.list [])
  | .attrObj v => v
  | .other => .list []

/-- Lines 161–162: `if not isinstance(selected_urls, list): selected_urls
= list(selected_urls) if selected_urls is not None else []`.  A
`TypeError` from `list(...)` on a non-iterable is caught by the
enclosing `except`, which then returns the raw value as-is (line 172). -/
def normalizeSelected (raw : PyVal) : PyVal :=
  if raw.isList then raw
  else
    match raw with
    | .none => .list []
    | v =>
      match pyList v with
      | .ok xs => .list xs
      | .error _ => v

/-- `select_reddit_urls`: returns the value written to
`selected_reddit_urls` and the number of reasoning-engine invocations.
The whole body after the guard sits in a `try`, so the node never
raises. -/
def select_reddit_urls (engine : StructuredLLMOutcome) (st : State) :
    PyVal × Nat :=
  let user_input := stGetS st.user_input
  let reddit_results := stGet st.reddit_results
  if !user_input.isStr || !reddit_results.isTruthy then (.list [], 0)
  else
    match engine with
    | .raises _ => (.list [], 1)
    | r => (normalizeSelected (rawSelected r), 1)

/-! ## Post Detail Retrieval node (`main.py` lines 174–210) -/

/-- `retrieve_reddit_posts`: `scrap` is the outcome of the one
`scrap_reddit(...)` provider call (`PyVal.none` = the provider's `None`
sentinel), `engine` the outcome of the one `llm.invoke` call.  Returns
the value written to `reddit_post_data`, the provider-call count and the
engine-call count.  The provider call and everything after it sit in a
`try`, so every raise on that path degrades to `""`. -/
def retrieve_reddit_posts (scrap : Except Exc PyVal)
    (engine : Except Exc Reply) (st : State) : PyVal × Nat × Nat :=
  let sel := stGet st.selected_reddit_urls
  match sel with
  | .list xs =>
    if xs.isEmpty then (.str "", 0, 0)
    else
      match scrap with
      | .error _ => (.str "", 1, 0)
      | .ok response_data =>
        if !response_data.isTruthy then (.str "", 1, 0)
        else
          match response_data with
          | .dict kvs =>
            let reddit_post_data := dictGet kvs "parsed_comments" (.list [])
            match pyLen reddit_post_data with
            | .error _ => (.str "", 1, 0)
            | .ok _ =>
              if !reddit_post_data.isTruthy then (.str "", 1, 0)
              else
                match engine with
                | .error _ => (.str "", 1, 1)
                | .ok reply => (replyToText reply, 1, 1)
          | _ => (.str "", 1, 0)
  | _ => (.str "", 0, 0)

/-! ## Analysis nodes (`main.py` lines 211–324)

Each takes the outcome of the one `llm.invoke` call it can make.  None of
the four wraps that call in a `try`, so an engine raise propagates out of
the node (first component `.error`). -/

/-- `analyze_google_results` (lines 211–220).  Guard: `not user_input or
not google_results`.  Writes `reply.content` verbatim; a reply without a
`content` attribute raises `AttributeError`. -/
def analyze_google_results (engine : Except Exc Reply) (st : State) :
    Except Exc PyVal × Nat :=
  let user_input := stGetS st.user_input
  let google_results := stGet st.google_results
  if !user_input.isTruthy || !google_results.isTruthy then (.ok (.str ""), 0)
  else
    match engine with
    | .error e => (.error e, 1)
    | .ok reply =>
      match reply.content with
      | some c => (.ok c, 1)
      | Option.none => (.error .attributeError, 1)

/-- `analyze_bing_results` (lines 222–253).  Inputs are str-coerced
(`str(v) if v is not None else ""`); guard is `not bing_results` only. -/
def analyze_bing_results (engine : Except Exc Reply) (st : State) :
    Except Exc PyVal × Nat :=
  let bing_results := pyCoerceStr (stGetS st.bing_results)
  if bing_results.isEmpty then (.ok (.str ""), 0)
  else
    match engine with
    | .error e => (.error e, 1)
    | .ok reply => (.ok (replyToText reply), 1)

/-- `analyze_yandex_results` (lines 255–286): same shape as Bing. -/
def analyze_yandex_results (engine : Except Exc Reply) (st : State) :
    Except Exc PyVal × Nat :=
  let yandex_results := pyCoerceStr (stGetS st.yandex_results)
  if yandex_results.isEmpty then (.ok (.str ""), 0)
  else
    match engine with
    | .error e => (.error e, 1)
    | .ok reply => (.ok (replyToText reply), 1)

/-- `analyze_reddit_results` (lines 288–324).  Gates on
`reddit_post_data` (not on `reddit_results`); converts a non-str truthy
`reddit_post_data` with `list(...)` (which raises `TypeError` on a
non-iterable, uncaught); writes `reply.content` verbatim. -/
def analyze_reddit_results (engine : Except Exc Reply) (st : State) :
    Except Exc PyVal × Nat :=
  let reddit_post_data := stGet st.reddit_post_data
  if !reddit_post_data.isTruthy then (.ok (.str ""), 0)
  else
    let conv : Except Exc (List PyVal) :=
      match reddit_post_data with
      | .str s => .ok [.str s]
      | v => pyList v
    match conv with
    | .error e => (.error e, 0)
    | .ok _ =>
      match engine with
      | .error e => (.error e, 1)
      | .ok reply =>
        match reply.content with
        | some c => (.ok c, 1)
        | Option.none => (.error .attributeError, 1)

/-! ## Synthesis node (`main.py` lines 326–381) -/

/-- `synthesize_final_answer`: the four analyses are fetched with default
`""` and coerced by `str(v) if v is not None else ""`; if
`not any(analyses.values())` the node short-circuits to `""` with no
engine call, otherwise it invokes the engine once and writes
`str(reply.content) if hasattr(reply, 'content') else str(reply)`. -/
def synthesize_final_answer (engine : Except Exc Reply) (st : State) :
    Except Exc PyVal × Nat :=
  let google_analysis := pyCoerceStr (stGetS st.google_analysis)
  let bing_analysis := pyCoerceStr (stGetS st.bing_analysis)
  let yandex_analysis := pyCoerceStr (stGetS st.yandex_analysis)
  let reddit_analysis := pyCoerceStr (stGetS st.reddit_analysis)
  if google_analysis.isEmpty && bing_analysis.isEmpty &&
      yandex_analysis.isEmpty && reddit_analysis.isEmpty then
    (.ok (.str ""), 0)
  else
    match engine with
    | .error e => (.error e, 1)
    | .ok reply => (.ok (replyToText reply), 1)

/-! ## Reddit scrape provider (`reddit_web_operations.py`)

The HTTP helpers (`_trigger_reddit_data_collection`,
`_get_post_comments_by_urls`, `_get_snapshot_status_by_snapshot_id`,
`_get_snapshot_data_by_id`) catch all their own exceptions and return a
JSON value or `None`; their outcomes are supplied by a `RedditEnv`
(status/data outcomes indexed by the 0-based poll attempt). -/

def MAX_ATTEMPTS : Nat := 50

/-- The fixed `time.sleep(10)` inter-poll delay, in time-units. -/
def POLL_DELAY : Nat := 10

/-- `RedditScrapeOperationType` enum. -/
inductive RedditScrapeOperationType where
  | POSTS
  | POST_COMMENTS
deriving Repr, DecidableEq

structure RedditEnv where
  trigger : PyVal
  getComments : PyVal
  status : Nat → PyVal
  snapshotData : Nat → PyVal

/-- Python `v == "lit"` for a dynamic `v`. -/
def PyVal.eqStr : PyVal → String → Bool
  | .str s, t => s == t
  | _, _ => false

/-- `_parse_reddit_data_collection_response` entry: `{"title":
post.get("title"), "url": post.get("url")}`; a non-dict element has no
`.get`, raising `AttributeError` (uncaught in `scrap_reddit`). -/
def parseTitleUrl (p : PyVal) : Except Exc PyVal :=
  match p with
  | .dict kvs =>
    .ok (.dict [("title", dictGet kvs "title" .none), ("url", dictGet kvs "url" .none)])
  | _ => .error .attributeError

/-- `_parse_reddit_post_details_response` entry. -/
def parseComment (p : PyVal) : Except Exc PyVal :=
  match p with
  | .dict kvs =>
    .ok (.dict [
      ("comment_id", dictGet kvs "comment_id" .none),
      ("content", dictGet kvs "content" .none),
      ("date", dictGet kvs "date" .none),
      ("parent_comment_id", dictGet kvs "parent_comment_id" .none),
      ("post_title", dictGet kvs "post_title" .none),
      ("url", dictGet kvs "url" .none)])
  | _ => .error .attributeError

/-- The two `_parse_reddit_*_response` functions, selected by operation
type; iterating a non-list snapshot payload raises. -/
def parseSnapshot (op : RedditScrapeOperationType) (d : PyVal) :
    Except Exc PyVal :=
  match d with
  | .list ps =>
    match op with
    | .POSTS =>
      (ps.mapM parseTitleUrl).map
        (fun l => PyVal.dict [("parsed_posts", .list l), ("total_found", .int ps.length)])
    | .POST_COMMENTS =>
      (ps.mapM parseComment).map
        (fun l => PyVal.dict [("parsed_comments", .list l), ("total_found", .int ps.length)])
  | .dict _ => .error .attributeError
  | .str _ => .error .attributeError
  | _ => .error .typeError

/-- The polling loop of `scrap_reddit` (lines 60–83): `fuel` is the
remaining iterations of `for attempt in range(MAX_ATTEMPTS)`, `attempt`
the current 0-based index.  Returns (result, number of status polls
performed, total time-units slept); `.ok .none` is the function's `None`
no-data return.  Each iteration that neither returns nor raises ends
with `time.sleep(10)`, accounted as `POLL_DELAY` time-units. -/
def pollLoop (env : RedditEnv) (op : RedditScrapeOperationType) :
    Nat → Nat → Except Exc PyVal × Nat × Nat
  | _, 0 => (.ok .none, 0, 0)
  | attempt, fuel + 1 =>
    let resp := env.status attempt
    if !resp.isTruthy then (.ok .none, 1, 0)
    else
      match resp with
      | .dict kvs =>
        let status := dictGet kvs "status" .none
        if status.eqStr "ready" then
          let d := env.snapshotData attempt
          if !d.isTruthy then (.ok .none, 1, 0)
          else
            match parseSnapshot op d with
            | .error e => (.error e, 1, 0)
            | .ok parsed => (.ok parsed, 1, 0)
        else if status.eqStr "failed" then (.ok .none, 1, 0)
        else
          let rest := pollLoop env op (attempt + 1) fuel
          (rest.1, rest.2.1 + 1, rest.2.2 + POLL_DELAY)
      | _ => (.error .attributeError, 1, 0)

/-- `scrap_reddit` (lines 25–83): dispatch on operation type and query
shape, truthiness checks on the trigger response and its `snapshot_id`,
then the polling loop.  Result components as in `pollLoop`. -/
def scrap_reddit (env : RedditEnv) (query : PyVal)
    (op : RedditScrapeOperationType) : Except Exc PyVal × Nat × Nat :=
  let response_data : PyVal :=
    if op == .POSTS && query.isStr then env.trigger
    else if op == .POST_COMMENTS && query.isList then env.getComments
    else .none
  if !response_data.isTruthy then (.ok .none, 0, 0)
  else
    match response_data with
    | .dict kvs =>
      let snapshot_id := dictGet kvs "snapshot_id" .none
      if !snapshot_id.isTruthy then (.ok .none, 0, 0)
      else pollLoop env op 0 MAX_ATTEMPTS
    | _ => (.error .attributeError, 0, 0)

/-- The status poll at attempt `i` reported `"ready"`. -/
def statusReadyAt (env : RedditEnv) (i : Nat) : Bool :=
  match env.status i with
  | .dict kvs => (dictGet kvs "status" .none).eqStr "ready"
  | _ => false

/-- The status response at attempt `i` has a shape the loop handles
without raising: a dict, or any falsy value (treated as a failed
request).  A truthy non-dict would raise `AttributeError` at
`.get("status")`. -/
def statusShapeOK (v : PyVal) : Bool :=
  match v with
  | .dict _ => true
  | v => !v.isTruthy

/-- Whether Python `list(v)` succeeds (`v` is iterable). -/
def pyIterable (v : PyVal) : Bool :=
  match pyList v with
  | .ok _ => true
  | .error _ => false

/-- The status poll at attempt `i` reported `"failed"`. -/
def statusFailedAt (env : RedditEnv) (i : Nat) : Bool :=
  match env.status i with
  | .dict kvs => (dictGet kvs "status" .none).eqStr "failed"
  | _ => false

/-- The status poll at attempt `i` makes the loop continue: a truthy dict
whose status is neither `"ready"` nor `"failed"`. -/
def statusContinuesAt (env : RedditEnv) (i : Nat) : Bool :=
  match env.status i with
  | .dict kvs =>
    (PyVal.dict kvs).isTruthy &&
      !(dictGet kvs "status" .none).eqStr "ready" &&
      !(dictGet kvs "status" .none).eqStr "failed"
  | _ => false

/-! ## Claims -/

/-- C8: for every gathering node and every state whose `user_input` is
empty or missing, the node writes `""` to its owned result field and
never invokes the external provider (provider-call count 0). -/
theorem claim_C8 (st : State)
    (h : stGet st.user_input = PyVal.none ∨ stGet st.user_input = PyVal.str "") :
    (∀ serp, google_search serp st = (.ok (.str ""), 0)) ∧
    (∀ serp, bing_search serp st = (.ok (.str ""), 0)) ∧
    (∀ serp, yandex_search serp st = (.ok (.str ""), 0)) ∧
    (∀ scrap, reddit_search scrap st = (.ok (.str ""), 0)) := by
  have ht : (stGet st.user_input).isTruthy = false := by
    rcases h with h | h <;> rw [h] <;> rfl
  refine ⟨fun serp => ?_, fun serp => ?_, fun serp => ?_, fun scrap => ?_⟩ <;>
    simp [google_search, bing_search, yandex_search, reddit_search, ht]

/-- C8 witness: a state with `user_input` present but empty. -/
theorem claim_C8_witness :
    google_search (fun _ => .ok (.str "x")) { user_input := some (.str "") } =
      (.ok (.str ""), 0) :=
  (claim_C8 { user_input := some (.str "") } (Or.inr rfl)).1 (fun _ => .ok (.str "x"))

/-- C2 counterexample: with non-empty `user_input` and a provider
returning the `None` failure sentinel, `google_search` writes `None`
verbatim — not the empty string the claim requires. -/
theorem claim_C2_counterexample :
    google_search (fun _ => .ok PyVal.none) { user_input := some (.str "q") } =
      (.ok PyVal.none, 1) ∧
    (Except.ok PyVal.none : Except Exc PyVal) ≠ .ok (.str "") := by
  exact ⟨rfl, by simp⟩

/-- C2 amended: with non-empty `user_input`, each gathering node writes
the provider's return value verbatim in every case — the `None` failure
sentinel included, which is written as `None` rather than coerced to
`""` (and a provider raise propagates unchanged). -/
theorem claim_C2_amended (st : State)
    (h : (stGet st.user_input).isTruthy = true)
    (serp : SearchEngine → Except Exc PyVal) (scrap : Except Exc PyVal) :
    google_search serp st = (serp SearchEngine.GOOGLE, 1) ∧
    bing_search serp st = (serp SearchEngine.BING, 1) ∧
    yandex_search serp st = (serp SearchEngine.Yandex, 1) ∧
    reddit_search scrap st = (scrap, 1) := by
  refine ⟨?_, ?_, ?_, ?_⟩ <;>
    simp [google_search, bing_search, yandex_search, reddit_search, h]

/-- C2 amended witness: concrete non-empty query, provider returning a
dict. -/
theorem claim_C2_witness :
    google_search (fun _ => .ok (.dict [("organic", .list [])]))
      { user_input := some (.str "q") } =
      (.ok (.dict [("organic", .list [])]), 1) :=
  (claim_C2_amended { user_input := some (.str "q") } rfl
    (fun _ => .ok (.dict [("organic", .list [])])) (.ok .none)).1

/-- C3 counterexample: `user_input` present but empty (`""` is a `str`,
so `isinstance` passes) with non-empty `reddit_results`: the node
invokes the reasoning engine (count 1) and writes its selection, not
`[]`. -/
theorem claim_C3_counterexample :
    select_reddit_urls (.schemaObj ["u"])
      { user_input := some (.str ""), reddit_results := some (.str "r") } =
      (.list [.str "u"], 1) ∧
    ((PyVal.list [.str "u"], (1 : Nat)) ≠ (PyVal.list [], (0 : Nat))) := by
  exact ⟨rfl, by simp⟩

/-- C3 amended: `select_reddit_urls` writes `selected_reddit_urls = []`
without invoking the reasoning engine when `user_input` (defaulted to
`""`) is not a string — e.g. present as `None` — or when
`reddit_results` is empty, missing or otherwise falsy; an empty-string
`user_input` alone does not short-circuit. -/
theorem claim_C3_amended (engine : StructuredLLMOutcome) (st : State)
    (h : (stGetS st.user_input).isStr = false ∨
      (stGet st.reddit_results).isTruthy = false) :
    select_reddit_urls engine st = (.list [], 0) := by
  have hc : (!(stGetS st.user_input).isStr ||
      !(stGet st.reddit_results).isTruthy) = true := by
    rcases h with h | h <;> simp [h]
  simp [select_reddit_urls, hc]

/-- C3 amended witness: `reddit_results` empty. -/
theorem claim_C3_witness :
    select_reddit_urls (.schemaObj ["u"])
      { user_input := some (.str "q"), reddit_results := some (.str "") } =
      (.list [], 0) :=
  claim_C3_amended (.schemaObj ["u"])
    { user_input := some (.str "q"), reddit_results := some (.str "") }
    (Or.inr rfl)

/-- The list-normalization step yields a list, except that a
non-iterable raw value is passed through unchanged (the `TypeError` from
`list(...)` being caught). -/
lemma normalizeSelected_spec (raw : PyVal) :
    (normalizeSelected raw).isList = true ∨
      (normalizeSelected raw = raw ∧ pyIterable raw = false) := by
  cases raw <;> simp [normalizeSelected, pyIterable, pyList, PyVal.isList]

/-- C4 counterexample: the reasoning engine returns a raw mapping whose
`selected_urls` value is a non-iterable (`7`); `list(7)` raises
`TypeError`, the `except` swallows it, and the node returns the raw
`7` — not a list. -/
theorem claim_C4_counterexample :
    select_reddit_urls (.mapping [("selected_urls", .int 7)])
      { user_input := some (.str "q"), reddit_results := some (.str "r") } =
      (.int 7, 1) ∧
    (PyVal.int 7).isList = false := by
  exact ⟨rfl, rfl⟩

/-- C4 amended: `select_reddit_urls` never raises (it is a total
function into a state update), and the value it writes is a list in
every case — engine raising, schema object, unexpected shape, or a
mapping/attribute-bearing object whose `selected_urls` value is a list,
`None` or iterable — except when that raw `selected_urls` value is
non-iterable, in which case the raw value itself is written.  In the
engine-raise and unexpected-shape cases the written list is empty. -/
theorem claim_C4_amended (engine : StructuredLLMOutcome) (st : State) :
    ((select_reddit_urls engine st).1.isList = true ∨
      ((select_reddit_urls engine st).1 = rawSelected engine ∧
        pyIterable (rawSelected engine) = false)) ∧
    (∀ e, engine = .raises e → (select_reddit_urls engine st).1 = .list []) ∧
    (engine = .other → (select_reddit_urls engine st).1 = .list []) := by
  by_cases hg : (!(stGetS st.user_input).isStr ||
      !(stGet st.reddit_results).isTruthy) = true
  · refine ⟨?_, ?_, ?_⟩ <;> simp [select_reddit_urls, hg, PyVal.isList]
  · have hg' : (!(stGetS st.user_input).isStr ||
        !(stGet st.reddit_results).isTruthy) = false := by
      revert hg
      cases (!(stGetS st.user_input).isStr || !(stGet st.reddit_results).isTruthy) <;> simp
    cases engine with
    | raises e => refine ⟨?_, ?_, ?_⟩ <;> simp [select_reddit_urls, hg', PyVal.isList]
    | schemaObj urls =>
      refine ⟨?_, ?_, ?_⟩ <;> simp [select_reddit_urls, hg']
      exact normalizeSelected_spec _
    | mapping kvs =>
      refine ⟨?_, ?_, ?_⟩ <;> simp [select_reddit_urls, hg']
      exact normalizeSelected_spec _
    | attrObj v =>
      refine ⟨?_, ?_, ?_⟩ <;> simp [select_reddit_urls, hg']
      exact normalizeSelected_spec _
    | other =>
      refine ⟨?_, ?_, ?_⟩ <;> simp [select_reddit_urls, hg', rawSelected, normalizeSelected, PyVal.isList]

/-- C4 amended witness: the engine raises; the node still returns, with
the empty list. -/
theorem claim_C4_witness :
    (select_reddit_urls (.raises .valueError)
      { user_input := some (.str "q"), reddit_results := some (.str "r") }).1 =
      .list [] :=
  (claim_C4_amended (.raises .valueError)
    { user_input := some (.str "q"), reddit_results := some (.str "r") }).2.1
    .valueError rfl

/-- C7: for every state with empty or absent `selected_reddit_urls`, the
Post Detail Retrieval node returns `reddit_post_data = ""` with no
provider call; and whenever the provider call or the later
reasoning-engine call raises, it still returns `reddit_post_data = ""`
(the node is a total function — no exception propagates). -/
theorem claim_C7 (scrap : Except Exc PyVal) (engine : Except Exc Reply) (st : State) :
    ((stGet st.selected_reddit_urls = PyVal.none ∨
        stGet st.selected_reddit_urls = PyVal.list []) →
      retrieve_reddit_posts scrap engine st = (.str "", 0, 0)) ∧
    (∀ e, scrap = .error e →
      (retrieve_reddit_posts scrap engine st).1 = .str "") ∧
    (∀ e, engine = .error e →
      (retrieve_reddit_posts scrap engine st).1 = .str "") := by
  refine ⟨?_, ?_, ?_⟩
  · intro h
    rcases h with h | h <;> simp [retrieve_reddit_posts, h]
  · intro e he
    subst he
    cases hv : stGet st.selected_reddit_urls <;> simp [retrieve_reddit_posts, hv]
    case list xs =>
      cases xs <;> simp
  · intro e he
    subst he
    cases hv : stGet st.selected_reddit_urls <;> simp [retrieve_reddit_posts, hv]
    case list xs =>
      cases xs with
      | nil => simp
      | cons a as =>
        simp only [List.isEmpty_cons, Bool.not_false, if_true]
        cases scrap with
        | error e' => rfl
        | ok rd =>
          by_cases hrd : rd.isTruthy = true
          · simp [hrd]
            cases rd with
            | none => simp_all [PyVal.isTruthy]
            | str s => simp
            | int n => simp
            | list l => simp
            | dict kvs =>
              simp only
              cases hl : pyLen (dictGet kvs "parsed_comments" (.list [])) with
              | error e2 => simp [hl]
              | ok n =>
                by_cases hp : (dictGet kvs "parsed_comments" (.list [])).isTruthy = true <;>
                  simp [hl, hp]
          · simp [hrd]

/-- C7 witness: empty selected-URL list; and, in a second application, a
raising provider with URLs present. -/
theorem claim_C7_witness :
    retrieve_reddit_posts (.ok .none) (.ok ⟨some (.str "A"), "r"⟩)
      { selected_reddit_urls := some (.list []) } = (.str "", 0, 0) ∧
    (retrieve_reddit_posts (.error .requestError) (.ok ⟨some (.str "A"), "r"⟩)
      { selected_reddit_urls := some (.list [.str "u"]) }).1 = .str "" :=
  ⟨(claim_C7 (.ok .none) (.ok ⟨some (.str "A"), "r"⟩)
      { selected_reddit_urls := some (.list []) }).1 (Or.inr rfl),
   (claim_C7 (.error .requestError) (.ok ⟨some (.str "A"), "r"⟩)
      { selected_reddit_urls := some (.list [.str "u"]) }).2.1 .requestError rfl⟩

@[simp] lemma string_empty_isEmpty : ("" : String).isEmpty = true := rfl

/-- C9 counterexample: `analyze_reddit_results` with empty
`reddit_results` but non-empty `reddit_post_data` invokes the reasoning
engine (count 1) and writes its reply — not `""` with no call, as the
claim requires of the raw-source field `reddit_results`. -/
theorem claim_C9_counterexample :
    analyze_reddit_results (.ok ⟨some (.str "A"), "r"⟩)
      { reddit_results := some (.str ""), reddit_post_data := some (.str "d") } =
      (.ok (.str "A"), 1) ∧
    ((Except.ok (PyVal.str "A") : Except Exc PyVal), (1 : Nat)) ≠
      (.ok (.str ""), 0) := by
  exact ⟨rfl, by simp⟩

/-- C9 amended: the three web analysis nodes short-circuit to `""`
without an engine call when their raw-source field is empty (missing,
`None` or `""`); the Reddit analysis node's gating field is
`reddit_post_data`, not `reddit_results` — empty `reddit_post_data`
short-circuits to `""` with no engine call, while an empty
`reddit_results` alone does not. -/
theorem claim_C9_amended (engine : Except Exc Reply) (st : State) :
    ((st.google_results = Option.none ∨ st.google_results = some PyVal.none ∨
        st.google_results = some (.str "")) →
      analyze_google_results engine st = (.ok (.str ""), 0)) ∧
    ((st.bing_results = Option.none ∨ st.bing_results = some PyVal.none ∨
        st.bing_results = some (.str "")) →
      analyze_bing_results engine st = (.ok (.str ""), 0)) ∧
    ((st.yandex_results = Option.none ∨ st.yandex_results = some PyVal.none ∨
        st.yandex_results = some (.str "")) →
      analyze_yandex_results engine st = (.ok (.str ""), 0)) ∧
    ((st.reddit_post_data = Option.none ∨ st.reddit_post_data = some PyVal.none ∨
        st.reddit_post_data = some (.str "")) →
      analyze_reddit_results engine st = (.ok (.str ""), 0)) := by
  refine ⟨?_, ?_, ?_, ?_⟩ <;> intro h <;> rcases h with h | h | h <;>
    simp [analyze_google_results, analyze_bing_results, analyze_yandex_results,
      analyze_reddit_results, stGet, stGetS, pyCoerceStr, pyStr, PyVal.isTruthy, h]

/-- C9 amended witness: empty `google_results` and empty
`reddit_post_data`. -/
theorem claim_C9_witness :
    analyze_google_results (.ok ⟨some (.str "A"), "r"⟩)
      { user_input := some (.str "q"), google_results := some (.str "") } =
      (.ok (.str ""), 0) ∧
    analyze_reddit_results (.ok ⟨some (.str "A"), "r"⟩)
      { reddit_results := some (.str "raw"), reddit_post_data := some (.str "") } =
      (.ok (.str ""), 0) :=
  ⟨(claim_C9_amended _ _).1 (Or.inr (Or.inr rfl)),
   (claim_C9_amended _ _).2.2.2 (Or.inr (Or.inr rfl))⟩

/-- C10: with empty (present) `user_input` and non-empty raw results,
`analyze_google_results` short-circuits to `""` with no engine call,
while `analyze_bing_results` and `analyze_yandex_results` do invoke the
engine (count 1): only the Google node requires non-empty `user_input`. -/
theorem claim_C10 (engine : Except Exc Reply) (st : State)
    (hui : st.user_input = some (PyVal.str ""))
    (_hg : (stGet st.google_results).isTruthy = true)
    (hb : (pyCoerceStr (stGetS st.bing_results)).isEmpty = false)
    (hy : (pyCoerceStr (stGetS st.yandex_results)).isEmpty = false) :
    analyze_google_results engine st = (.ok (.str ""), 0) ∧
    (analyze_bing_results engine st).2 = 1 ∧
    (analyze_yandex_results engine st).2 = 1 := by
  refine ⟨?_, ?_, ?_⟩
  · simp [analyze_google_results, stGetS, hui, PyVal.isTruthy]
  · simp only [analyze_bing_results, hb, Bool.false_eq_true, if_false]
    cases engine <;> simp
  · simp only [analyze_yandex_results, hy, Bool.false_eq_true, if_false]
    cases engine <;> simp

/-- C10 witness: empty `user_input`, all three raw result fields
non-empty. -/
theorem claim_C10_witness :
    analyze_google_results (.ok ⟨some (.str "A"), "r"⟩)
      { user_input := some (.str ""), google_results := some (.str "g"),
        bing_results := some (.str "b"), yandex_results := some (.str "y") } =
      (.ok (.str ""), 0) ∧
    (analyze_bing_results (.ok ⟨some (.str "A"), "r"⟩)
      { user_input := some (.str ""), google_results := some (.str "g"),
        bing_results := some (.str "b"), yandex_results := some (.str "y") }).2 = 1 ∧
    (analyze_yandex_results (.ok ⟨some (.str "A"), "r"⟩)
      { user_input := some (.str ""), google_results := some (.str "g"),
        bing_results := some (.str "b"), yandex_results := some (.str "y") }).2 = 1 :=
  claim_C10 (.ok ⟨some (.str "A"), "r"⟩) _ rfl (by decide) (by decide) (by decide)

/-- C5: `synthesize_final_answer` writes `final_answer = ""` with no
engine call exactly when all four (`None`-coerced) analysis fields are
empty; with at least one non-empty it invokes the engine once and writes
the engine's returned text. -/
theorem claim_C5 (st : State) :
    (∀ engine : Except Exc Reply,
      (synthesize_final_answer engine st = (.ok (.str ""), 0) ↔
        (pyCoerceStr (stGetS st.google_analysis) = "" ∧
         pyCoerceStr (stGetS st.bing_analysis) = "" ∧
         pyCoerceStr (stGetS st.yandex_analysis) = "" ∧
         pyCoerceStr (stGetS st.reddit_analysis) = ""))) ∧
    (∀ r : Reply,
      ¬(pyCoerceStr (stGetS st.google_analysis) = "" ∧
        pyCoerceStr (stGetS st.bing_analysis) = "" ∧
        pyCoerceStr (stGetS st.yandex_analysis) = "" ∧
        pyCoerceStr (stGetS st.reddit_analysis) = "") →
      synthesize_final_answer (.ok r) st = (.ok (replyToText r), 1)) := by
  have hiff : ((pyCoerceStr (stGetS st.google_analysis)).isEmpty &&
      (pyCoerceStr (stGetS st.bing_analysis)).isEmpty &&
      (pyCoerceStr (stGetS st.yandex_analysis)).isEmpty &&
      (pyCoerceStr (stGetS st.reddit_analysis)).isEmpty) = true ↔
      (pyCoerceStr (stGetS st.google_analysis) = "" ∧
       pyCoerceStr (stGetS st.bing_analysis) = "" ∧
       pyCoerceStr (stGetS st.yandex_analysis) = "" ∧
       pyCoerceStr (stGetS st.reddit_analysis) = "") := by
    simp [String.isEmpty_iff, and_assoc]
  by_cases hall : ((pyCoerceStr (stGetS st.google_analysis)).isEmpty &&
      (pyCoerceStr (stGetS st.bing_analysis)).isEmpty &&
      (pyCoerceStr (stGetS st.yandex_analysis)).isEmpty &&
      (pyCoerceStr (stGetS st.reddit_analysis)).isEmpty) = true
  · constructor
    · intro engine
      simp [synthesize_final_answer, hall, hiff.mp hall]
    · intro r hr
      exact absurd (hiff.mp hall) hr
  · have hall' := hall
    rw [Bool.not_eq_true] at hall'
    constructor
    · intro engine
      constructor
      · intro he
        exfalso
        revert he
        simp only [synthesize_final_answer, hall', Bool.false_eq_true, if_false]
        cases engine <;> simp
      · intro hc
        exact absurd (hiff.mpr hc) hall
    · intro r hr
      simp [synthesize_final_answer, hall']

/-- C5 witness: all-empty analyses short-circuit; one non-empty analysis
triggers one engine call whose text is written. -/
theorem claim_C5_witness :
    synthesize_final_answer (.ok ⟨some (.str "F"), "r"⟩) { } = (.ok (.str ""), 0) ∧
    synthesize_final_answer (.ok ⟨some (.str "F"), "r"⟩)
      { google_analysis := some (.str "ga") } = (.ok (.str "F"), 1) := by
  constructor
  · exact ((claim_C5 { }).1 (.ok ⟨some (.str "F"), "r"⟩)).mpr ⟨rfl, rfl, rfl, rfl⟩
  · exact (claim_C5 { google_analysis := some (.str "ga") }).2
      ⟨some (.str "F"), "r"⟩ (by decide)

/-- C1: the failure-isolation claim is violated by the analysis nodes:
none of the four wraps its `llm.invoke` in a `try`, so with non-empty
inputs a raising reasoning engine makes each node raise (first component
`.error`, engine-call count 1) instead of returning an empty-field state
update.  The spec's own design note (§9) records this as a bug to fix. -/
theorem claim_C1 :
    analyze_google_results (.error .requestError)
      { user_input := some (.str "q"), google_results := some (.str "g"),
        bing_results := some (.str "b"), yandex_results := some (.str "y"),
        reddit_results := some (.str "r"), reddit_post_data := some (.str "d") } =
      (.error .requestError, 1) ∧
    analyze_bing_results (.error .requestError)
      { user_input := some (.str "q"), google_results := some (.str "g"),
        bing_results := some (.str "b"), yandex_results := some (.str "y"),
        reddit_results := some (.str "r"), reddit_post_data := some (.str "d") } =
      (.error .requestError, 1) ∧
    analyze_yandex_results (.error .requestError)
      { user_input := some (.str "q"), google_results := some (.str "g"),
        bing_results := some (.str "b"), yandex_results := some (.str "y"),
        reddit_results := some (.str "r"), reddit_post_data := some (.str "d") } =
      (.error .requestError, 1) ∧
    analyze_reddit_results (.error .requestError)
      { user_input := some (.str "q"), google_results := some (.str "g"),
        bing_results := some (.str "b"), yandex_results := some (.str "y"),
        reddit_results := some (.str "r"), reddit_post_data := some (.str "d") } =
      (.error .requestError, 1) := by
  exact ⟨rfl, rfl, rfl, rfl⟩

lemma pollLoop_polls_le (env : RedditEnv) (op : RedditScrapeOperationType) :
    ∀ fuel attempt, (pollLoop env op attempt fuel).2.1 ≤ fuel := by
  intro fuel
  induction fuel with
  | zero => intro a; simp [pollLoop]
  | succ n ih =>
    intro a
    simp only [pollLoop]
    split
    · simp
    · split
      · split
        · split
          · simp
          · split <;> simp
        · split
          · simp
          · have := ih (a + 1)
            simp only
            omega
      · simp

lemma pollLoop_sleep (env : RedditEnv) (op : RedditScrapeOperationType) :
    ∀ fuel attempt, ∃ k, k ≤ (pollLoop env op attempt fuel).2.1 ∧
      (pollLoop env op attempt fuel).2.1 ≤ k + 1 ∧
      (pollLoop env op attempt fuel).2.2 = POLL_DELAY * k := by
  intro fuel
  induction fuel with
  | zero => intro a; exact ⟨0, by simp [pollLoop]⟩
  | succ n ih =>
    intro a
    simp only [pollLoop]
    split
    · exact ⟨0, by simp⟩
    · split
      · split
        · split
          · exact ⟨0, by simp⟩
          · split <;> exact ⟨0, by simp⟩
        · split
          · exact ⟨0, by simp⟩
          · obtain ⟨k, h1, h2, h3⟩ := ih (a + 1)
            refine ⟨k + 1, ?_, ?_, ?_⟩ <;> simp only
            · omega
            · omega
            · rw [h3]; ring
      · exact ⟨0, by simp⟩

lemma pollLoop_never_ready (env : RedditEnv) (op : RedditScrapeOperationType) :
    ∀ fuel attempt,
      (∀ i, attempt ≤ i → i < attempt + fuel →
        statusShapeOK (env.status i) = true ∧ statusReadyAt env i = false) →
      (pollLoop env op attempt fuel).1 = .ok .none := by
  intro fuel
  induction fuel with
  | zero => intro a _; simp [pollLoop]
  | succ n ih =>
    intro a h
    obtain ⟨hshape, hready⟩ := h a (le_refl a) (by omega)
    unfold statusReadyAt at hready
    unfold statusShapeOK at hshape
    simp only [pollLoop]
    cases hv : env.status a with
    | dict kvs =>
      rw [hv] at hready
      simp only at hready
      by_cases ht : (PyVal.dict kvs).isTruthy = true
      · simp only [ht, Bool.not_true, Bool.false_eq_true, if_false]
        by_cases hf : (dictGet kvs "status" PyVal.none).eqStr "failed" = true
        · simp [hready, hf]
        · rw [Bool.not_eq_true] at hf
          simp only [hready, hf, Bool.false_eq_true, if_false]
          show (pollLoop env op (a + 1) n).1 = Except.ok PyVal.none
          exact ih (a + 1) (fun i h1 h2 => h i (by omega) (by omega))
      · rw [Bool.not_eq_true] at ht
        simp [ht]
    | none => simp [PyVal.isTruthy]
    | str s =>
      rw [hv] at hshape
      simp [PyVal.isTruthy] at hshape
      simp [PyVal.isTruthy, hshape]
    | int m =>
      rw [hv] at hshape
      simp [PyVal.isTruthy] at hshape
      simp [PyVal.isTruthy, hshape]
    | list l =>
      rw [hv] at hshape
      simp [PyVal.isTruthy] at hshape
      simp [PyVal.isTruthy, hshape]

lemma eqStr_failed_not_ready (v : PyVal) (h : v.eqStr "failed" = true) :
    v.eqStr "ready" = false := by
  cases v <;> simp [PyVal.eqStr] at h ⊢
  subst h
  decide

lemma pollLoop_failed (env : RedditEnv) (op : RedditScrapeOperationType) :
    ∀ fuel attempt j, attempt ≤ j → j < attempt + fuel →
      statusFailedAt env j = true →
      (∀ i, attempt ≤ i → i < j → statusContinuesAt env i = true) →
      (pollLoop env op attempt fuel).1 = .ok .none := by
  intro fuel
  induction fuel with
  | zero => intro a j h1 h2 _ _; omega
  | succ n ih =>
    intro a j h1 h2 hf hc
    rcases Nat.eq_or_lt_of_le h1 with heq | hlt
    · subst heq
      unfold statusFailedAt at hf
      simp only [pollLoop]
      cases hv : env.status a with
      | dict kvs =>
        rw [hv] at hf
        simp only at hf
        have hkvs : (PyVal.dict kvs).isTruthy = true := by
          cases kvs with
          | nil => simp [dictGet, PyVal.eqStr] at hf
          | cons p ps => simp [PyVal.isTruthy]
        have hnr : (dictGet kvs "status" PyVal.none).eqStr "ready" = false :=
          eqStr_failed_not_ready _ hf
        simp [hkvs, hnr, hf]
      | none => rw [hv] at hf; simp at hf
      | str s => rw [hv] at hf; simp at hf
      | int m => rw [hv] at hf; simp at hf
      | list l => rw [hv] at hf; simp at hf
    · have hca := hc a (le_refl a) hlt
      unfold statusContinuesAt at hca
      simp only [pollLoop]
      cases hv : env.status a with
      | dict kvs =>
        rw [hv] at hca
        simp only [Bool.and_eq_true, Bool.not_eq_true'] at hca
        obtain ⟨⟨ht, hnr⟩, hnf⟩ := hca
        simp only [ht, Bool.not_true, Bool.false_eq_true, if_false]
        simp only [hnr, Bool.false_eq_true, if_false]
        simp only [hnf, Bool.false_eq_true, if_false]
        show (pollLoop env op (a + 1) n).1 = Except.ok PyVal.none
        exact ih (a + 1) j (by omega) (by omega) hf (fun i hi1 hi2 => hc i (by omega) hi2)
      | none => rw [hv] at hca; simp at hca
      | str s => rw [hv] at hca; simp at hca
      | int m => rw [hv] at hca; simp at hca
      | list l => rw [hv] at hca; simp at hca

/-- C6: for every provider behaviour, the polling loop of `scrap_reddit`
performs at most `MAX_ATTEMPTS = 50` status polls, sleeps a fixed
`POLL_DELAY = 10` time-units between consecutive polls (total slept time
is `POLL_DELAY * k` with `k` within one of the poll count), and yields
the no-data result `None` whenever the reported status never becomes
`ready` within the ceiling — in particular on request failure or
ceiling exhaustion — and whenever a poll reports `failed` after only
continue-status polls. -/
theorem claim_C6 (env : RedditEnv) (op : RedditScrapeOperationType) :
    (∀ q, (scrap_reddit env q op).2.1 ≤ MAX_ATTEMPTS) ∧
    (pollLoop env op 0 MAX_ATTEMPTS).2.1 ≤ MAX_ATTEMPTS ∧
    (∃ k, k ≤ (pollLoop env op 0 MAX_ATTEMPTS).2.1 ∧
      (pollLoop env op 0 MAX_ATTEMPTS).2.1 ≤ k + 1 ∧
      (pollLoop env op 0 MAX_ATTEMPTS).2.2 = POLL_DELAY * k) ∧
    ((∀ i, i < MAX_ATTEMPTS → statusShapeOK (env.status i) = true ∧
        statusReadyAt env i = false) →
      (pollLoop env op 0 MAX_ATTEMPTS).1 = .ok .none) ∧
    (∀ j, j < MAX_ATTEMPTS → statusFailedAt env j = true →
      (∀ i, i < j → statusContinuesAt env i = true) →
      (pollLoop env op 0 MAX_ATTEMPTS).1 = .ok .none) := by
  refine ⟨?_, pollLoop_polls_le env op MAX_ATTEMPTS 0,
    pollLoop_sleep env op MAX_ATTEMPTS 0, ?_, ?_⟩
  · intro q
    simp only [scrap_reddit]
    repeat' split
    all_goals first
      | exact pollLoop_polls_le env op MAX_ATTEMPTS 0
      | simp
  · intro h
    exact pollLoop_never_ready env op MAX_ATTEMPTS 0 (fun i _ h2 => h i (by omega))
  · intro j hj hf hc
    exact pollLoop_failed env op MAX_ATTEMPTS 0 j (Nat.zero_le j) (by omega) hf
      (fun i _ h2 => hc i h2)

/-- C6 witness: a provider whose status is always `failed`, and one whose
status is always `running` (exhausting the ceiling). -/
theorem claim_C6_witness :
    (pollLoop ⟨.dict [("snapshot_id", .str "s")], .none,
        fun _ => .dict [("status", .str "failed")], fun _ => .none⟩
      .POSTS 0 MAX_ATTEMPTS).1 = .ok .none ∧
    (pollLoop ⟨.dict [("snapshot_id", .str "s")], .none,
        fun _ => .dict [("status", .str "running")], fun _ => .none⟩
      .POSTS 0 MAX_ATTEMPTS).1 = .ok .none :=
  ⟨(claim_C6 ⟨.dict [("snapshot_id", .str "s")], .none,
      fun _ => .dict [("status", .str "failed")], fun _ => .none⟩ .POSTS).2.2.2.2
    0 (by decide) (by decide) (fun i hi => absurd hi (Nat.not_lt_zero i)),
   (claim_C6 ⟨.dict [("snapshot_id", .str "s")], .none,
      fun _ => .dict [("status", .str "running")], fun _ => .none⟩ .POSTS).2.2.2.1
    (by decide)⟩
